import Mathlib

/-!
Verification development for the `launch` remote-process-execution core.

The definitions below are a shallow embedding of the Python sources:

* `src/launch/launch/actions/execute_remote_process.py`
  (`ExecuteRemoteProcess.__init__`, `prepare`, `execute`,
  `__execute_process`, `__cleanup`),
* `src/launch/launch/utilities/ssh_connection.py` (`SSHConnection`),
* `src/launch/launch/descriptions/ssh_machine.py` (`SshMachine`),
* `src/launch/launch/substitutions/remote_substitution.py`
  (`RemoteSubstitution`).

The action module and the machine description are work in progress: several
of the names their bodies read are never imported at module level or never
assigned on the instance.  Where a claim depends on such a read, the
embedding models Python name and attribute resolution directly — a lookup in
the list of names the module or class actually defines, executed in the
evaluation order of the source — and the theorems follow the failing
evaluation.  Raised Python exceptions are modelled with `Except`, Python
`None` with `Option`.
-/

namespace Launch

/-- Python exception values that the modelled code can raise. -/
inductive PyError where
  | typeError (detail : String)
  | attributeError (name : String)
  | nameError (name : String)
  | runtimeError (detail : String)
  | invalidStateError
  deriving DecidableEq, Repr

/-- The names defined at module level in `execute_remote_process.py`: the
imports of lines 17 to 31 and the class itself.  The class body also reads
`os` (line 116), `cast` and `perform_typed_substitution` (line 176) and
`traceback` (line 287), none of which appear here — they are never
imported. -/
def executeRemoteProcessModuleNames : List String :=
  ["asyncio", "Callable", "List", "Optional", "Text", "Union", "Action",
   "Executable", "Machine", "ProcessExited", "LaunchContext",
   "LaunchDescriptionEntity", "SomeEntitiesType", "SomeSubstitutionsType",
   "ExecuteRemoteProcess"]

/-- Module-level name resolution in `execute_remote_process.py`: reading a
name the module does not define raises `NameError`. -/
def lookupModuleName (n : String) : Except PyError String :=
  if n ∈ executeRemoteProcessModuleNames then Except.ok n
  else Except.error (PyError.nameError n)

/-- The instance attributes assigned anywhere in the `ExecuteRemoteProcess`
class (name mangling left implicit), granting that `__init__` (lines 111 to
135), `prepare` (line 167) and `execute` (lines 234 to 244) run to
completion.  The respawn fields `__respawn`, `__respawn_retries`,
`__respawn_max_retries`, `__respawn_delay` and the timer fields
`__sigterm_timer`, `__sigkill_timer` are not among them: no statement of the
class ever assigns the timers or the retry fields, and the sole assignment
to `__respawn` (prepare, line 176) raises while evaluating its right-hand
side, before assigning. -/
def executeRemoteProcessInstanceAttrs : List String :=
  ["__process_description", "__machine", "__prefix", "__output",
   "__output_format", "__log_cmd", "__on_exit", "__process_event_args",
   "_subprocess_protocol", "_subprocess_transport", "__completed_future",
   "__shutdown_future", "__executed", "__logger", "__stdout_logger",
   "__stderr_logger"]

/-- Attribute lookup on an `ExecuteRemoteProcess` instance: an attribute the
class never assigns raises `AttributeError` when read. -/
def instanceGetattr (n : String) : Except PyError String :=
  if n ∈ executeRemoteProcessInstanceAttrs then Except.ok n
  else Except.error (PyError.attributeError n)

/-- Runs a sequence of instance-attribute reads in order, raising at the
first attribute the class never assigns. -/
def runAttrReads : List String → Except PyError Unit
  | [] => Except.ok ()
  | n :: ns =>
    match instanceGetattr n with
    | Except.error e => Except.error e
    | Except.ok _ => runAttrReads ns

/-- The attribute reads of the respawn guard of `__execute_process`
(lines 294 to 299) in short-circuit evaluation order, in the situation the
claims concern (`context.is_shutdown` false, so the conjunction continues):
`self.__shutdown_future` twice (the `is not None` test and the `done()`
call), then `self.__respawn`. -/
def respawnGuardReads : List String :=
  ["__shutdown_future", "__shutdown_future", "__respawn"]

/-- Evaluation of the respawn guard as its sequence of attribute reads. -/
def runRespawnGuard : Except PyError Unit := runAttrReads respawnGuardReads

/-- The exception handler of `__execute_process` (lines 285 to 290) reads
the module-level name `traceback` to format the failure before its
`self.__cleanup()` call; the name is never imported.  (The `except` at line
285 also has no matching `try`, so the enclosing function definition does
not even parse.) -/
def runExcHandler : Except PyError Unit :=
  match lookupModuleName "traceback" with
  | Except.error e => Except.error e
  | Except.ok _ => Except.ok ()

/-- The attribute reads `ExecuteRemoteProcess.__cleanup` performs, in source
order: `self.__sigterm_timer` (line 258), `self.__sigkill_timer` (line 260),
`self._subprocess_transport` (line 263), and `self.__completed_future` for
the final `set_result` (line 266). -/
def cleanupReads : List String :=
  ["__sigterm_timer", "__sigkill_timer", "_subprocess_transport",
   "__completed_future"]

/-- Evaluation of `__cleanup` as its sequence of attribute reads; it reaches
`set_result` only if every read resolves. -/
def runCleanup : Except PyError Unit := runAttrReads cleanupReads

/-- `ExecuteRemoteProcess.__init__`: lines 111 to 113 store the description,
machine and prefix, then line 116 evaluates `os.environ.get(...)`; `os` is
never imported, so construction raises `NameError` there — before
`self.__executed = False` at line 135 is ever reached. -/
def executeRemoteProcessInit : Except PyError Unit :=
  match lookupModuleName "os" with
  | Except.error e => Except.error e
  | Except.ok _ => Except.ok ()

/-- `ExecuteRemoteProcess.prepare`: reads `self.__process_description` and
packs the event arguments (lines 164 to 174), then line 176 evaluates the
right-hand side of `self.__respawn = cast(bool, ...)`, whose callee `cast`
is an unimported module-level name. -/
def runPrepare : Except PyError Unit :=
  match instanceGetattr "__process_description" with
  | Except.error e => Except.error e
  | Except.ok _ =>
    match lookupModuleName "cast" with
    | Except.error e => Except.error e
    | Except.ok _ => Except.ok ()

/-- What a completed `ExecuteRemoteProcess.execute` call would have set up
before returning: how many event handlers it registered, whether it created
the completion and shutdown futures, and whether it created the monitor
task running `__execute_process`. -/
structure ExecuteEffects where
  eventHandlersRegistered : Nat
  completedFutureCreated : Bool
  shutdownFutureCreated : Bool
  monitorTaskCreated : Bool
  deriving DecidableEq, Repr

/-- `ExecuteRemoteProcess.execute`: line 188 calls `self.prepare(context)`
first; only if that call returns does line 191 test the `__executed` guard
(raising `RuntimeError` on a re-execution), then line 197 the
`context.is_shutdown` check (returning `None` with nothing set up), and
otherwise the five handler registrations, the two futures and the monitor
task are set up before returning `None`. -/
def execute (executed ctxIsShutdown : Bool) :
    Except PyError (ExecuteEffects × Option (List Unit)) :=
  match runPrepare with
  | Except.error e => Except.error e
  | Except.ok _ =>
    if executed then
      Except.error (PyError.runtimeError "executed more than once")
    else if ctxIsShutdown then
      Except.ok (⟨0, false, false, false⟩, none)
    else
      Except.ok (⟨5, true, true, true⟩, none)

/-- C1 fails on the code: the respawn state does not exist.  After a process
exit, evaluating the respawn guard raises `AttributeError` on `__respawn`,
and none of the four respawn fields is ever assigned by the class, so a
process is never relaunched at all — not exactly `N` times with an
incrementing retry counter as claimed. -/
theorem respawn_state_never_initialized :
    runRespawnGuard = Except.error (PyError.attributeError "__respawn") ∧
    "__respawn" ∉ executeRemoteProcessInstanceAttrs ∧
    "__respawn_retries" ∉ executeRemoteProcessInstanceAttrs ∧
    "__respawn_max_retries" ∉ executeRemoteProcessInstanceAttrs ∧
    "__respawn_delay" ∉ executeRemoteProcessInstanceAttrs :=
  ⟨rfl, by decide, by decide, by decide, by decide⟩

/-- C2 fails on the code: the cancellable delay wait and the Stop override
are dead code.  The guard preceding the wait already raises `AttributeError`
on `__respawn`, and the wait itself would first read `__respawn_delay`, also
never assigned — while the shutdown future the wait would watch is one of
the attributes `execute` does create.  No execution reaches a respawn
decision, so the claimed shutdown-overrides-retry behaviour never runs. -/
theorem delay_wait_unreachable :
    runRespawnGuard = Except.error (PyError.attributeError "__respawn") ∧
    instanceGetattr "__respawn_delay" =
      Except.error (PyError.attributeError "__respawn_delay") ∧
    instanceGetattr "__shutdown_future" = Except.ok "__shutdown_future" :=
  ⟨rfl, rfl, rfl⟩

/-- C3 fails on the code: no path resolves the completion future.
`__cleanup` raises `AttributeError` on the never-created `__sigterm_timer`
(line 258) before reaching `set_result` (line 266), and the
exception-handler path raises `NameError` on the unimported `traceback`
before its own `__cleanup` call — rather than every path resolving the
future exactly once. -/
theorem cleanup_never_resolves_future :
    runCleanup = Except.error (PyError.attributeError "__sigterm_timer") ∧
    runExcHandler = Except.error (PyError.nameError "traceback") ∧
    "__sigterm_timer" ∉ executeRemoteProcessInstanceAttrs ∧
    "__sigkill_timer" ∉ executeRemoteProcessInstanceAttrs :=
  ⟨rfl, rfl, by decide, by decide⟩

/-- C4 fails on the code: the double-execution guard is unreachable.  Every
`execute` call raises `NameError` on the unimported `cast` inside the
preceding `prepare` call, before the `__executed` guard at line 191 is
evaluated — and `__init__` itself raises `NameError` on the unimported `os`
before `__executed` is ever set, so no instance can even reach the
already-executed state the guard tests. -/
theorem execute_raises_before_guard :
    (∀ executed ctxIsShutdown : Bool, execute executed ctxIsShutdown =
      Except.error (PyError.nameError "cast")) ∧
    executeRemoteProcessInit = Except.error (PyError.nameError "os") :=
  ⟨fun _ _ => rfl, rfl⟩

/-- C5 fails on the code: with a global shutdown already in effect, a first
`execute` call does not return immediately with no entities — it raises
`NameError` in the `prepare` call at line 188, before the
`context.is_shutdown` check at line 197 is reached. -/
theorem execute_raises_before_shutdown_check :
    execute false true = Except.error (PyError.nameError "cast") := rfl

/-- Model of the paramiko `SSHClient` that `SSHConnection` wraps: the
underlying transport, `None` when no session is open. -/
structure SSHClientModel where
  transport : Option Unit
  deriving DecidableEq, Repr

/-- Paramiko `SSHClient.close`: closes and clears the underlying transport
when one is present, and returns normally in either case — `close` on an
unopened or already-closed client is documented as safe. -/
def sshClientClose (c : SSHClientModel) : Except PyError SSHClientModel :=
  match c.transport with
  | some _ => Except.ok ⟨none⟩
  | none => Except.ok ⟨none⟩

/-- The `SSHConnection` state: the `SSHClient` created in `__init__`. -/
structure SSHConnectionState where
  connection : SSHClientModel
  deriving DecidableEq, Repr

/-- `SSHConnection.close_connection`: `self.__connection.close()`. -/
def close_connection (conn : SSHConnectionState) :
    Except PyError SSHConnectionState :=
  (sshClientClose conn.connection).map (fun c => ⟨c⟩)

/-- C6: closing a connection never raises, and close is idempotent: a second
`close_connection` on the already-closed connection succeeds and leaves the
state unchanged. -/
theorem close_connection_idempotent (conn : SSHConnectionState) :
    ∃ conn2, close_connection conn = Except.ok conn2 ∧
      close_connection conn2 = Except.ok conn2 := by
  rcases conn with ⟨⟨t⟩⟩
  cases t <;> exact ⟨⟨⟨none⟩⟩, rfl, rfl⟩

/-- The handle paramiko `exec_command` produces for a started command. -/
structure CommandHandle where
  cmd : String
  deriving DecidableEq, Repr

/-- Paramiko `SSHClient.exec_command`: starts `cmd` on a fresh channel and
immediately returns its (stdin, stdout, stderr) handle without waiting for
the command to finish. -/
def execCommand (c : SSHClientModel) (cmd : String)
    (env : Option (List (String × String))) : CommandHandle :=
  ⟨cmd⟩

/-- `SSHConnection.exec_on_connection`: runs
`self.__connection.exec_command(command=cmd, environment=env)` and then falls
off the end of the function body with no `return` statement — so, as for
every Python function without a `return`, its value is `None`. -/
def exec_on_connection (c : SSHClientModel) (cmd : String)
    (env : Option (List (String × String))) : Option CommandHandle :=
  let _handle := execCommand c cmd env
  none

/-- The result-string statement of `RemoteSubstitution.perform`: it subscripts
`result_tuple` (the value of `exec_on_connection`) at indices 0, 1 and 2 to
build the returned string; subscripting `None` raises `TypeError`. -/
def performResult (resultTuple : Option CommandHandle) : Except PyError String :=
  match resultTuple with
  | none => Except.error (PyError.typeError "NoneType is not subscriptable")
  | some h =>
      Except.ok ("StdIn: \n" ++ h.cmd ++ "\nStdOut: \n" ++ h.cmd ++
        "\nStdErr: \n" ++ h.cmd)

/-- C7 fails on the code: `exec_on_connection` hands no output/exit handle
back — its value is `None` for every connection, command and environment —
and the caller in `RemoteSubstitution.perform` consequently fails with a
`TypeError` when it subscripts that result. -/
theorem exec_on_connection_returns_no_handle :
    (∀ c cmd env, exec_on_connection c cmd env = none) ∧
    (∀ c cmd env, performResult (exec_on_connection c cmd env) =
      Except.error (PyError.typeError "NoneType is not subscriptable")) :=
  ⟨fun _ _ _ => rfl, fun _ _ _ => rfl⟩

/-- The attribute names the `SshMachine` class defines: its six properties.
`hostname`, `ssh_key` and `passphrase` are not among them, and the instance
attributes assigned in `__init__` are name-mangled (`_SshMachine__hostname`
and so on), so a plain `machine.hostname` lookup cannot find those either. -/
def sshMachineAttrs : List String :=
  ["host_ip", "port", "user", "password", "priv_key_location", "ssh_opts"]

/-- Python attribute lookup on an `SshMachine` object: defined attributes
resolve, anything else raises `AttributeError`. -/
def sshMachineGetattr (name : String) : Except PyError String :=
  if name ∈ sshMachineAttrs then Except.ok name
  else Except.error (PyError.attributeError name)

/-- The keyword arguments `SSHConnection.open_connection` passes to
`SSHClient.connect`, as written in the source: key material only, plus
`look_for_keys=False`, and no `password` keyword. -/
def openConnectionKeywords : List String :=
  ["hostname", "port", "key_filename", "passphrase", "look_for_keys"]

/-- The literal value of the `look_for_keys` argument of the `connect` call. -/
def openConnectionLookForKeys : Bool := false

/-- `SSHConnection.open_connection`: evaluates the argument expressions of the
`connect` call in order — `self.__machine.hostname()`, `self.__machine.port()`,
`self.__machine.ssh_key()`, `self.__machine.passphrase()` — each an attribute
lookup on the machine object; the first failing lookup raises
`AttributeError` before any connect is attempted. -/
def open_connection : Except PyError (List String) := do
  let a ← sshMachineGetattr "hostname"
  let b ← sshMachineGetattr "port"
  let c ← sshMachineGetattr "ssh_key"
  let d ← sshMachineGetattr "passphrase"
  Except.ok [a, b, c, d]

/-- C8 fails on the code: although the `connect` call as written is key-based
only (`look_for_keys=False`, no `password` keyword), opening a connection on
an `SshMachine` never reaches it — the very first accessor expression
`machine.hostname()` raises `AttributeError`, because `SshMachine` defines no
such attribute; the failure is not a `ConnectionError` of the claimed
taxonomy. -/
theorem open_connection_attribute_error :
    open_connection = Except.error (PyError.attributeError "hostname") ∧
    openConnectionLookForKeys = false ∧
    "password" ∉ openConnectionKeywords := by
  refine ⟨rfl, rfl, ?_⟩
  decide

/-- The parameter names in scope in the body of `SshMachine.__init__`. -/
def sshMachineInitParams : List String :=
  ["self", "hostname", "port", "ssh_key_path", "passphrase"]

/-- Python name resolution inside `SshMachine.__init__`: a name that is
neither a parameter nor otherwise defined raises `NameError`. -/
def lookupInitName (n : String) : Except PyError String :=
  if n ∈ sshMachineInitParams then Except.ok n
  else Except.error (PyError.nameError n)

/-- The names the assignment statements of `SshMachine.__init__` read, in
source order: `hostname` and `port` are parameters, but `user`, `password`,
`priv_key_location` and `ssh_opts` are not defined anywhere in scope. -/
def sshMachineInitReads : List String :=
  ["hostname", "port", "user", "password", "priv_key_location", "ssh_opts"]

/-- Executes the reads of `SshMachine.__init__` in source order, stopping at
the first failing name lookup. -/
def runInitReads : List String → Except PyError Unit
  | [] => Except.ok ()
  | n :: ns =>
    match lookupInitName n with
    | Except.error e => Except.error e
    | Except.ok _ => runInitReads ns

/-- `SshMachine.__init__` as the sequence of name reads its body performs. -/
def sshMachineInit : Except PyError Unit := runInitReads sshMachineInitReads

/-- C9 fails on the code: constructing an `SshMachine` never yields the
claimed descriptor — the third assignment of `__init__` reads the undefined
name `user` and raises `NameError`; moreover the class exposes no `hostname`
or `passphrase` accessor while it does expose a `password` property,
contradicting the claimed stable shape. -/
theorem ssh_machine_init_name_error :
    sshMachineInit = Except.error (PyError.nameError "user") ∧
    sshMachineGetattr "hostname" =
      Except.error (PyError.attributeError "hostname") ∧
    sshMachineGetattr "passphrase" =
      Except.error (PyError.attributeError "passphrase") ∧
    sshMachineGetattr "password" = Except.ok "password" :=
  ⟨rfl, rfl, rfl, rfl⟩

/-- Python values a `RemoteSubstitution` command argument might carry. -/
inductive PyValue where
  | str (s : String)
  | int (n : Int)
  | boolVal (b : Bool)
  | noneVal
  | listVal (elems : List String)
  deriving DecidableEq, Repr

/-- The Python type name of a value, as `type(...)` reports it. -/
def PyValue.typeName : PyValue → String
  | .str _ => "str"
  | .int _ => "int"
  | .boolVal _ => "bool"
  | .noneVal => "NoneType"
  | .listVal _ => "list"

/-- `isinstance(command, Text)` — `Text` is `str`. -/
def PyValue.isText : PyValue → Bool
  | .str _ => true
  | _ => false

/-- A constructed `RemoteSubstitution`: the stored command and machine. -/
structure RemoteSubstitutionState (M : Type) where
  command : String
  machine : M
  deriving DecidableEq, Repr

/-- `RemoteSubstitution.__init__`: after `super().__init__()`, it raises
`TypeError` when the command is not a `Text`, otherwise it stores command and
machine unchanged; the machine argument is never inspected. -/
def remoteSubstitutionInit {M : Type} (command : PyValue) (machine : M) :
    Except PyError (RemoteSubstitutionState M) :=
  match command with
  | PyValue.str s => Except.ok ⟨s, machine⟩
  | v => Except.error (PyError.typeError
      ("RemoteSubstitution expected Text object got " ++ v.typeName ++
        " instead."))

/-- C10: construction succeeds for every text-string command, storing command
and machine unchanged with no validation of the machine, and raises a
`TypeError` for every non-text command. -/
theorem remote_substitution_init_validation {M : Type} (machine : M) :
    (∀ s : String, remoteSubstitutionInit (PyValue.str s) machine =
      Except.ok ⟨s, machine⟩) ∧
    (∀ v : PyValue, v.isText = false → ∃ d,
      remoteSubstitutionInit v machine =
        (Except.error (PyError.typeError d) :
          Except PyError (RemoteSubstitutionState M))) := by
  refine ⟨fun s => rfl, fun v hv => ?_⟩
  cases v with
  | str s => simp [PyValue.isText] at hv
  | int n => exact ⟨_, rfl⟩
  | boolVal b => exact ⟨_, rfl⟩
  | noneVal => exact ⟨_, rfl⟩
  | listVal es => exact ⟨_, rfl⟩

/-- Witness for C10: a text command constructs with command and machine stored
unchanged; an integer command raises a `TypeError`. -/
theorem remote_substitution_init_validation_witness :
    remoteSubstitutionInit (PyValue.str "ls") (0 : Nat) =
      Except.ok ⟨"ls", 0⟩ ∧
    ∃ d, remoteSubstitutionInit (PyValue.int 3) (0 : Nat) =
      (Except.error (PyError.typeError d) :
        Except PyError (RemoteSubstitutionState Nat)) :=
  ⟨(remote_substitution_init_validation (0 : Nat)).1 "ls",
   (remote_substitution_init_validation (0 : Nat)).2 (PyValue.int 3) rfl⟩

end Launch
